import Mathlib

/-!
Verification of the `PrejudiceRemover` external-model adapter
(`aif360/algorithms/inprocessing/prejudice_remover.py`).

The adapter serializes a pandas dataframe into the Kamishima tool's columnar
layout (feature columns, then the designated sensitive attribute, then the
label), invokes an external script via `subprocess.run`, and decodes the
output matrix by fixed column positions.  Numeric values are modelled as
rationals; dataframes as ordered lists of named columns; the effectful parts
(temp-file creation, subprocess invocation, unlink) as a trace of events
together with the set of this call's temp files that still exist when the
call returns.
-/

namespace PrejudiceRemover

/-- Numeric cell values (`np.float64` in the source) are modelled as rationals. -/
abbrev Value := ℚ

/-- A pandas dataframe: an ordered list of named numeric columns.  Iteration
`for col in df` yields the column names in order; `df[name]` looks up the
first column with that name. -/
structure DataFrame where
  cols : List (String × List Value)
deriving DecidableEq

/-- Column names of the dataframe, in order (`for col in df`). -/
def DataFrame.names (df : DataFrame) : List String := df.cols.map Prod.fst

/-- Column lookup `df[name]`: values of the first column with that name
(empty when absent; the source would raise `KeyError` there, a case no claim
exercises). -/
def DataFrame.col (df : DataFrame) (name : String) : List Value :=
  match df.cols.find? (fun c => c.1 == name) with
  | some c => c.2
  | none => []

/-- Embedding of `np.array(x).T` for a rectangular nonempty list `x` of
equal-length columns: row `i` of the result collects entry `i` of every
column.  The row count is the length of the first column, which for the
rectangular inputs produced by the adapter equals every column's length. -/
def transposeCols (x : List (List Value)) : List (List Value) :=
  (List.range (x.headD []).length).map (fun i => x.map (fun c => c.getD i 0))

/-- Column list built by `create_file_in_kamishima_format` as nested in
`_runTrain` (prejudice_remover.py lines 144-158): iterate the dataframe's
columns in order, skip the label column and every column named in
`sensitive_attrs`, then append the designated sensitive column and the label
column. -/
def kamishimaColsTrain (df : DataFrame) (class_attr : String)
    (sensitive_attrs : List String) (single_sensitive : String) :
    List (List Value) :=
  (df.names.filter
      (fun col => !(col == class_attr) && !(sensitive_attrs.contains col))).map df.col
    ++ [df.col single_sensitive, df.col class_attr]

/-- Matrix written by `np.savetxt` in `_runTrain`'s
`create_file_in_kamishima_format` (line 158: `result = np.array(x).T`). -/
def kamishimaMatrixTrain (df : DataFrame) (class_attr : String)
    (sensitive_attrs : List String) (single_sensitive : String) :
    List (List Value) :=
  transposeCols (kamishimaColsTrain df class_attr sensitive_attrs single_sensitive)

/-- Column list built by `create_file_in_kamishima_format` as nested in
`_runTest` (prejudice_remover.py lines 184-198); transcribed from that
second copy of the function. -/
def kamishimaColsTest (df : DataFrame) (class_attr : String)
    (sensitive_attrs : List String) (single_sensitive : String) :
    List (List Value) :=
  (df.names.filter
      (fun col => !(col == class_attr) && !(sensitive_attrs.contains col))).map df.col
    ++ [df.col single_sensitive, df.col class_attr]

/-- Matrix written by `np.savetxt` in `_runTest`'s
`create_file_in_kamishima_format` (line 198). -/
def kamishimaMatrixTest (df : DataFrame) (class_attr : String)
    (sensitive_attrs : List String) (single_sensitive : String) :
    List (List Value) :=
  transposeCols (kamishimaColsTest df class_attr sensitive_attrs single_sensitive)

/-- Decoding of the external predictor's output matrix in `_runTest`
(lines 235-236): `predictions = m[:, 1]` and `prediction_probs = m[:, 3:5]`. -/
def decodeOutput (m : List (List Value)) : List Value × List (List Value) :=
  (m.map (fun r => r.getD 1 0), m.map (fun r => (r.drop 3).take 2))

/-- A numpy array that is either one- or two-dimensional.  `predict` stores a
one-dimensional prediction vector into `labels` and a two-dimensional score
matrix into `scores`, while a freshly loaded dataset holds both as
two-dimensional arrays. -/
inductive NDArr
  | one (v : List Value)
  | two (m : List (List Value))
deriving DecidableEq

/-- Row view used by `np.column_stack`: a one-dimensional array contributes a
single column, a two-dimensional array contributes its rows. -/
def NDArr.asRows : NDArr → List (List Value)
  | .one v => v.map (fun a => [a])
  | .two m => m

/-- The aif360 dataset fields that the adapter reads or writes, plus the
remaining per-instance metadata needed to state frame conditions. -/
structure Dataset where
  features : List (List Value)
  labels : NDArr
  scores : NDArr
  feature_names : List String
  label_names : List String
  protected_attribute_names : List String
  protected_attributes : List (List Value)
  instance_weights : List Value
  instance_names : List String
deriving DecidableEq

/-- The dataframe built at the top of `fit` and `predict` (lines 94-97 and
122-125): `data = np.column_stack([dataset.features, dataset.labels])` with
column names `dataset.feature_names + dataset.label_names`. -/
def Dataset.df (ds : Dataset) : DataFrame :=
  let data := List.zipWith (· ++ ·) ds.features ds.labels.asRows
  let columns := ds.feature_names ++ ds.label_names
  ⟨columns.enum.map (fun p => (p.2, data.map (fun r => r.getD p.1 0)))⟩

/-- Python exceptions and spec error kinds relevant to the claims.
`attributeError` is what `self.model_name` raises when `fit` never ran;
`indexError` is `list[0]` on an empty list; `subprocessLaunchError` is
`subprocess.run` failing to launch the interpreter or script.
`preconditionError` and `externalToolFailure` are the spec's error kinds,
which the source never produces. -/
inductive PyError
  | attributeError
  | indexError
  | subprocessLaunchError
  | preconditionError
  | externalToolFailure
deriving DecidableEq

/-- Behavior of a `subprocess.run` invocation: the external process either
runs and exits with a code (with `check=False`, the source's setting, any
exit code returns normally) or the launch itself raises. -/
inductive SubprocBehavior
  | exits (code : Int)
  | raises
deriving DecidableEq

/-- Environment supplied by the outside world: what the subprocess call does,
and the matrix `np.loadtxt` reads from the predictor's output file. -/
structure Env where
  beh : SubprocBehavior
  toolOutput : List (List Value)
deriving DecidableEq

/-- Observable effects of one adapter call.  Temp files are numbered in
creation order within the call (`tempfile.mkstemp` returns fresh names). -/
inductive Event
  | mkstemp (file : Nat)
  | savetxt (file : Nat) (contents : List (List Value))
  | subprocessRun (script : String)
  | unlink (file : Nat)
  | loadtxt (file : Nat)
deriving DecidableEq

/-- Execution of `_runTrain` (lines 142-180).  Program order: `mkstemp` for
the model file (file 0), then `create_file_in_kamishima_format` makes the
input file (file 1: `mkstemp`, `np.savetxt`), then `subprocess.run` on
`train_pr.py`, then `os.unlink(train_name)`.  The result is the model file
path (the handle), returned no matter what the tool's exit code was; if the
launch raises, the exception propagates before the `unlink`, so both files
survive the call.  Returns (result, events in order, this call's temp files
that still exist on return). -/
def runTrainExec (beh : SubprocBehavior) (train_df : DataFrame)
    (class_attr : String) (sensitive_attrs : List String)
    (single_sensitive : String) :
    Except PyError Nat × List Event × List Nat :=
  let mat := kamishimaMatrixTrain train_df class_attr sensitive_attrs single_sensitive
  match beh with
  | .raises =>
      (.error .subprocessLaunchError,
       [.mkstemp 0, .mkstemp 1, .savetxt 1 mat, .subprocessRun "train_pr.py"],
       [0, 1])
  | .exits _ =>
      (.ok 0,
       [.mkstemp 0, .mkstemp 1, .savetxt 1 mat, .subprocessRun "train_pr.py",
        .unlink 1],
       [0])

/-- Execution of `_runTest` (lines 182-238).  Program order: `mkstemp` for
the output file (file 0), then the input file (file 1: `mkstemp`,
`np.savetxt`), then the `subprocess.run` argument list is built — evaluating
`self.model_name` raises `AttributeError` here when `fit` never set it —
then the predictor runs, `os.unlink(test_name)`, `np.loadtxt(output_name)`,
`os.unlink(output_name)`, and the fixed-position decode.  The exit code is
never inspected. -/
def runTestExec (env : Env) (model_name : Option Nat) (test_df : DataFrame)
    (class_attr : String) (sensitive_attrs : List String)
    (single_sensitive : String) :
    Except PyError (List Value × List (List Value)) × List Event × List Nat :=
  let mat := kamishimaMatrixTest test_df class_attr sensitive_attrs single_sensitive
  let pre : List Event := [.mkstemp 0, .mkstemp 1, .savetxt 1 mat]
  match model_name with
  | none => (.error .attributeError, pre, [0, 1])
  | some _ =>
      match env.beh with
      | .raises =>
          (.error .subprocessLaunchError,
           pre ++ [.subprocessRun "predict_lr.py"], [0, 1])
      | .exits _ =>
          (.ok (decodeOutput env.toolOutput),
           pre ++ [.subprocessRun "predict_lr.py", .unlink 1, .loadtxt 0,
                   .unlink 0],
           [])

/-- The `PrejudiceRemover` object state: constructor arguments plus the
`model_name` attribute, absent (`none`) until a `fit` call sets it. -/
structure Adapter where
  eta : Value
  sensitive_attr : String
  class_attr : String
  model_name : Option Nat := none
deriving DecidableEq

/-- Defaulting in `fit` (lines 102-108): an empty attribute name is falsy, so
it is replaced by the first candidate; Python's `candidates[0]` raises
`IndexError` when the candidate list is empty. -/
def resolveAttr (cur : String) (cands : List String) : Except PyError String :=
  if cur = "" then
    match cands with
    | [] => .error .indexError
    | c :: _ => .ok c
  else .ok cur

/-- Execution of `fit` (lines 94-120): build the dataframe, default the
sensitive and label attribute names (mutating the object), run `_runTrain`,
and on normal return store the model file path in `self.model_name`.
Returns (object state after the call, result, events, surviving temp
files). -/
def Adapter.fit (env : Env) (a : Adapter) (ds : Dataset) :
    Adapter × Except PyError Unit × List Event × List Nat :=
  match resolveAttr a.sensitive_attr ds.protected_attribute_names with
  | .error e => (a, .error e, [], [])
  | .ok sa =>
    match resolveAttr a.class_attr ds.label_names with
    | .error e => ({ a with sensitive_attr := sa }, .error e, [], [])
    | .ok ca =>
      let a' := { a with sensitive_attr := sa, class_attr := ca }
      match runTrainExec env.beh ds.df ca ds.protected_attribute_names sa with
      | (.ok h, evs, files) => ({ a' with model_name := some h }, .ok (), evs, files)
      | (.error e, evs, files) => (a', .error e, evs, files)

/-- Execution of `predict` (lines 122-140): build the dataframe, run
`_runTest`, then return `dataset.copy()` with `labels` replaced by the
predicted-label vector and `scores` by the score matrix.  The input dataset
is copied, not mutated (line 136), which the pure embedding renders as a
structure update on the result only. -/
def Adapter.predict (env : Env) (a : Adapter) (ds : Dataset) :
    Except PyError Dataset × List Event × List Nat :=
  match runTestExec env a.model_name ds.df a.class_attr
      ds.protected_attribute_names a.sensitive_attr with
  | (.ok (preds, probs), evs, files) =>
      (.ok { ds with labels := .one preds, scores := .two probs }, evs, files)
  | (.error e, evs, files) => (.error e, evs, files)

/-- The spec's 3-row scenario dataset: features `[[1,2],[3,4],[5,6]]`,
sensitive `[0,1,0]`, label `[1,0,1]`.  As in aif360, the protected attribute
is one of the dataset's feature columns. -/
def demoDataset : Dataset :=
  { features := [[1, 2, 0], [3, 4, 1], [5, 6, 0]]
    labels := .two [[1], [0], [1]]
    scores := .two [[1], [0], [1]]
    feature_names := ["feature1", "feature2", "sensitive"]
    label_names := ["label"]
    protected_attribute_names := ["sensitive"]
    protected_attributes := [[0], [1], [0]]
    instance_weights := [1, 1, 1]
    instance_names := ["0", "1", "2"] }

/-- The matrix the scenario expects in the serialized input file. -/
def demoMatrix : List (List Value) :=
  [[1, 2, 0, 1], [3, 4, 1, 0], [5, 6, 0, 1]]

/-- A fabricated 3-row predictor output matrix (integer-valued scores keep
kernel evaluation cheap): columns are true label, predicted label, sensitive
value, class-0 probability, class-1 probability. -/
def demoOut : List (List Value) :=
  [[1, 1, 0, 0, 1], [0, 0, 1, 1, 0], [1, 1, 0, 0, 1]]

/-- An adapter as constructed with explicit attribute names, before any `fit`
call: `model_name` was never assigned. -/
def untrainedAdapter : Adapter :=
  { eta := 1, sensitive_attr := "sensitive", class_attr := "label" }

/-- An adapter holding a model handle from a completed earlier `fit`. -/
def trainedAdapter : Adapter :=
  { eta := 1, sensitive_attr := "sensitive", class_attr := "label",
    model_name := some 7 }

/-- A variant of the scenario dataset declaring two protected attributes,
both among the feature columns. -/
def demoDataset2 : Dataset :=
  { features := [[1, 2, 0, 1], [3, 4, 1, 1], [5, 6, 0, 0]]
    labels := .two [[1], [0], [1]]
    scores := .two [[1], [0], [1]]
    feature_names := ["feature1", "feature2", "sensA", "sensB"]
    label_names := ["label"]
    protected_attribute_names := ["sensA", "sensB"]
    protected_attributes := [[0, 1], [1, 1], [0, 0]]
    instance_weights := [1, 1, 1]
    instance_names := ["0", "1", "2"] }

/-! ### Helper lemmas about the encoding -/

theorem transposeCols_length (x : List (List Value)) :
    (transposeCols x).length = (x.headD []).length := by
  simp [transposeCols]

theorem transposeCols_getD (x : List (List Value)) (i : Nat)
    (hi : i < (x.headD []).length) :
    (transposeCols x).getD i [] = x.map (fun c => c.getD i 0) := by
  rw [transposeCols, List.getD_eq_getElem?_getD, List.getElem?_map,
    List.getElem?_range hi]
  rfl

theorem DataFrame.col_of_mem (df : DataFrame) (s : String) (hs : s ∈ df.names) :
    ∃ c, c ∈ df.cols ∧ c.1 = s ∧ df.col s = c.2 := by
  have h : (df.cols.find? (fun c => c.1 == s)).isSome := by
    rw [List.find?_isSome]
    obtain ⟨c, hc, hcs⟩ := List.mem_map.mp hs
    exact ⟨c, hc, by simp [hcs]⟩
  obtain ⟨c, hc⟩ := Option.isSome_iff_exists.mp h
  refine ⟨c, List.mem_of_find?_eq_some hc, ?_, ?_⟩
  · simpa using List.find?_some hc
  · simp [DataFrame.col, hc]

theorem headD_mem {α : Type} (l : List α) (d : α) (h : l ≠ []) : l.headD d ∈ l := by
  cases l with
  | nil => exact absurd rfl h
  | cons a t => exact List.mem_cons_self a t

theorem kamishimaColsTrain_mem_length (df : DataFrame) (y : String)
    (sas : List String) (s : String) (n : Nat)
    (hrect : ∀ c ∈ df.cols, c.2.length = n)
    (hs : s ∈ df.names) (hy : y ∈ df.names) :
    ∀ col ∈ kamishimaColsTrain df y sas s, col.length = n := by
  intro col hcol
  rw [kamishimaColsTrain] at hcol
  rcases List.mem_append.mp hcol with h | h
  · obtain ⟨name, hname, rfl⟩ := List.mem_map.mp h
    obtain ⟨c, hc, _, hc2⟩ := df.col_of_mem name (List.mem_of_mem_filter hname)
    rw [hc2]
    exact hrect c hc
  · have h' : col = df.col s ∨ col = df.col y := by simpa using h
    rcases h' with rfl | rfl
    · obtain ⟨c, hc, _, hc2⟩ := df.col_of_mem s hs
      rw [hc2]; exact hrect c hc
    · obtain ⟨c, hc, _, hc2⟩ := df.col_of_mem y hy
      rw [hc2]; exact hrect c hc

theorem kamishimaColsTrain_ne_nil (df : DataFrame) (y : String)
    (sas : List String) (s : String) :
    kamishimaColsTrain df y sas s ≠ [] := by
  simp [kamishimaColsTrain]

theorem kamishimaColsTrain_headD_length (df : DataFrame) (y : String)
    (sas : List String) (s : String) (n : Nat)
    (hrect : ∀ c ∈ df.cols, c.2.length = n)
    (hs : s ∈ df.names) (hy : y ∈ df.names) :
    ((kamishimaColsTrain df y sas s).headD []).length = n :=
  kamishimaColsTrain_mem_length df y sas s n hrect hs hy _
    (headD_mem _ _ (kamishimaColsTrain_ne_nil df y sas s))

theorem kamishimaMatrixTrain_length (df : DataFrame) (y : String)
    (sas : List String) (s : String) (n : Nat)
    (hrect : ∀ c ∈ df.cols, c.2.length = n)
    (hs : s ∈ df.names) (hy : y ∈ df.names) :
    (kamishimaMatrixTrain df y sas s).length = n := by
  rw [kamishimaMatrixTrain, transposeCols_length]
  exact kamishimaColsTrain_headD_length df y sas s n hrect hs hy

theorem kamishimaMatrixTrain_getD (df : DataFrame) (y : String)
    (sas : List String) (s : String) (n : Nat)
    (hrect : ∀ c ∈ df.cols, c.2.length = n)
    (hs : s ∈ df.names) (hy : y ∈ df.names) (i : Nat) (hi : i < n) :
    (kamishimaMatrixTrain df y sas s).getD i [] =
      (df.names.filter (fun col => !(col == y) && !(sas.contains col))).map
          (fun name => (df.col name).getD i 0)
        ++ [(df.col s).getD i 0, (df.col y).getD i 0] := by
  rw [kamishimaMatrixTrain, transposeCols_getD _ i
    (by rw [kamishimaColsTrain_headD_length df y sas s n hrect hs hy]; exact hi)]
  simp [kamishimaColsTrain, List.map_map, Function.comp]

/-- The row-wise slice `m[:, 3:5]` of a row with at least five entries is the
pair of its fourth and fifth entries. -/
theorem slice_three_five (r : List Value) (h : 5 ≤ r.length) :
    (r.drop 3).take 2 = [r.getD 3 0, r.getD 4 0] := by
  rcases r with _ | ⟨a, _ | ⟨b, _ | ⟨c, _ | ⟨d, _ | ⟨e, t⟩⟩⟩⟩⟩
  all_goals first
    | rfl
    | (simp only [List.length] at h; omega)

/-! ### Claims -/

/-- C1: for every dataset (one designated sensitive attribute, as in the
spec's data model), the matrix serialized by `train` (and by `predict`,
which uses the identical encoding) has one row per dataset row, and row `i`
is the feature values (all columns except the sensitive attribute and the
label, in original order) followed by the sensitive value and then the label
value; in particular the 3-row scenario dataset yields exactly the 3-row
matrix `[[1,2,0,1],[3,4,1,0],[5,6,0,1]]`, whose row 2 is `3.0 4.0 1 0`. -/
theorem C1_input_file_layout (df : DataFrame) (y s : String) (n : Nat)
    (hrect : ∀ c ∈ df.cols, c.2.length = n)
    (hs : s ∈ df.names) (hy : y ∈ df.names) (i : Nat) (hi : i < n) :
    (kamishimaMatrixTrain df y [s] s).length = n ∧
    (kamishimaMatrixTrain df y [s] s).getD i [] =
      (df.names.filter (fun col => !(col == y) && !(col == s))).map
          (fun name => (df.col name).getD i 0)
        ++ [(df.col s).getD i 0, (df.col y).getD i 0] ∧
    kamishimaMatrixTrain demoDataset.df "label" ["sensitive"] "sensitive" = demoMatrix ∧
    demoMatrix.getD 1 [] = [3, 4, 1, 0] := by
  refine ⟨kamishimaMatrixTrain_length df y [s] s n hrect hs hy, ?_, by decide, by decide⟩
  rw [kamishimaMatrixTrain_getD df y [s] s n hrect hs hy i hi]
  congr 2
  apply List.filter_congr
  intro col _
  simp [List.contains_eq_any_beq, Bool.beq_eq_decide_eq]

theorem C1_input_file_layout_witness :
    (∀ c ∈ demoDataset.df.cols, c.2.length = 3) ∧
    "sensitive" ∈ demoDataset.df.names ∧ "label" ∈ demoDataset.df.names ∧ 1 < 3 ∧
    ((kamishimaMatrixTrain demoDataset.df "label" ["sensitive"] "sensitive").length = 3 ∧
     (kamishimaMatrixTrain demoDataset.df "label" ["sensitive"] "sensitive").getD 1 [] =
       (demoDataset.df.names.filter
           (fun col => !(col == "label") && !(col == "sensitive"))).map
           (fun name => (demoDataset.df.col name).getD 1 0)
         ++ [(demoDataset.df.col "sensitive").getD 1 0,
             (demoDataset.df.col "label").getD 1 0] ∧
     kamishimaMatrixTrain demoDataset.df "label" ["sensitive"] "sensitive" = demoMatrix ∧
     demoMatrix.getD 1 [] = [3, 4, 1, 0]) :=
  ⟨by decide, by decide, by decide, by decide,
   C1_input_file_layout demoDataset.df "label" "sensitive" 3 (by decide) (by decide)
     (by decide) 1 (by decide)⟩

/-- C2: for every predictor output matrix whose rows have at least five
entries, the decode in `_runTest` takes column 1 as the predicted labels and
columns 3-4 as the score pairs; in particular
`[[1,1,0,0.2,0.8],[0,0,1,0.9,0.1]]` decodes to predictions `[1,0]` and
scores `[[0.2,0.8],[0.9,0.1]]`. -/
theorem C2_output_decode (m : List (List Value)) (hm : ∀ r ∈ m, 5 ≤ r.length) :
    decodeOutput m =
      (m.map (fun r => r.getD 1 0), m.map (fun r => [r.getD 3 0, r.getD 4 0])) ∧
    decodeOutput [[1, 1, 0, 0.2, 0.8], [0, 0, 1, 0.9, 0.1]] =
      ([1, 0], [[0.2, 0.8], [0.9, 0.1]]) := by
  refine ⟨?_, by norm_num [decodeOutput]⟩
  rw [decodeOutput]
  congr 1
  apply List.map_congr_left
  intro r hr
  exact slice_three_five r (hm r hr)

theorem C2_output_decode_witness :
    (∀ r ∈ [[(1 : Value), 1, 0, 0.2, 0.8], [0, 0, 1, 0.9, 0.1]], 5 ≤ r.length) ∧
    (decodeOutput [[(1 : Value), 1, 0, 0.2, 0.8], [0, 0, 1, 0.9, 0.1]] =
      ([[(1 : Value), 1, 0, 0.2, 0.8], [0, 0, 1, 0.9, 0.1]].map (fun r => r.getD 1 0),
       [[(1 : Value), 1, 0, 0.2, 0.8], [0, 0, 1, 0.9, 0.1]].map
         (fun r => [r.getD 3 0, r.getD 4 0])) ∧
     decodeOutput [[1, 1, 0, 0.2, 0.8], [0, 0, 1, 0.9, 0.1]] =
      ([1, 0], [[0.2, 0.8], [0.9, 0.1]])) :=
  ⟨by decide, C2_output_decode _ (by decide)⟩

/-- C7: `predict` performs exactly the same encoding as `train`: the nested
`create_file_in_kamishima_format` of `_runTest` produces, on every dataframe
and attribute choice, the same serialized matrix as the one nested in
`_runTrain`. -/
theorem C7_train_predict_encoding_agree (df : DataFrame) (class_attr : String)
    (sensitive_attrs : List String) (single_sensitive : String) :
    kamishimaMatrixTrain df class_attr sensitive_attrs single_sensitive =
      kamishimaMatrixTest df class_attr sensitive_attrs single_sensitive := rfl

theorem map_fst_enumFrom_pair {α β : Type} (g : Nat × α → β) :
    ∀ (n : Nat) (l : List α),
      ((l.enumFrom n).map (fun p => (p.2, g p))).map Prod.fst = l
  | _, [] => rfl
  | n, a :: l => congrArg (List.cons a) (map_fst_enumFrom_pair g (n + 1) l)

theorem Dataset.df_names (ds : Dataset) :
    ds.df.names = ds.feature_names ++ ds.label_names :=
  map_fst_enumFrom_pair _ 0 _

theorem Dataset.df_col_length (ds : Dataset) (n : Nat)
    (hn : (List.zipWith (· ++ ·) ds.features ds.labels.asRows).length = n) :
    ∀ c ∈ ds.df.cols, c.2.length = n := by
  intro c hc
  obtain ⟨p, _, rfl⟩ := List.mem_map.mp hc
  simpa using hn

/-- C6: encoding a dataset of `N` rows yields an input matrix of exactly `N`
rows, and decoding an `N`-row external output yields prediction and score
sequences of length exactly `N` whose entry `i` is computed from output row
`i` (original row order preserved). -/
theorem C6_round_trip_lengths (ds : Dataset) (N : Nat) (sa y : String)
    (hf : ds.features.length = N) (hl : ds.labels.asRows.length = N)
    (hsa : sa ∈ ds.df.names) (hy : y ∈ ds.df.names)
    (out : List (List Value)) (hout : out.length = N) (i : Nat) (hi : i < N) :
    (kamishimaMatrixTrain ds.df y ds.protected_attribute_names sa).length = N ∧
    (decodeOutput out).1.length = N ∧
    (decodeOutput out).2.length = N ∧
    (decodeOutput out).1.get? i = (out.get? i).map (fun r => r.getD 1 0) ∧
    (decodeOutput out).2.get? i = (out.get? i).map (fun r => (r.drop 3).take 2) := by
  have hdata : (List.zipWith (· ++ ·) ds.features ds.labels.asRows).length = N := by
    rw [List.length_zipWith, hf, hl, Nat.min_self]
  refine ⟨kamishimaMatrixTrain_length _ _ _ _ N (ds.df_col_length N hdata) hsa hy,
    ?_, ?_, ?_, ?_⟩
  · simp [decodeOutput, hout]
  · simp [decodeOutput, hout]
  · simp [decodeOutput]
  · simp [decodeOutput]

theorem C6_round_trip_lengths_witness :
    demoDataset.features.length = 3 ∧ demoDataset.labels.asRows.length = 3 ∧
    "sensitive" ∈ demoDataset.df.names ∧ "label" ∈ demoDataset.df.names ∧
    demoOut.length = 3 ∧ 1 < 3 ∧
    ((kamishimaMatrixTrain demoDataset.df "label"
        demoDataset.protected_attribute_names "sensitive").length = 3 ∧
     (decodeOutput demoOut).1.length = 3 ∧
     (decodeOutput demoOut).2.length = 3 ∧
     (decodeOutput demoOut).1.get? 1 = (demoOut.get? 1).map (fun r => r.getD 1 0) ∧
     (decodeOutput demoOut).2.get? 1 =
       (demoOut.get? 1).map (fun r => (r.drop 3).take 2)) :=
  ⟨by decide, by decide, by decide, by decide, by decide, by decide,
   C6_round_trip_lengths demoDataset 3 "sensitive" "label" (by decide) (by decide)
     (by decide) (by decide) demoOut (by decide) 1 (by decide)⟩

/-- C8: when the adapter was constructed with an empty sensitive-attribute
name (resp. empty label name) and the dataset declares at least one
protected attribute (resp. label column), `fit` uses the first declared
protected attribute (resp. first declared label) — it stores it on the
object and encodes the input file with it. -/
theorem C8_attribute_defaulting (env : Env) (a : Adapter) (ds : Dataset)
    (p : String) (ps : List String) (q : String) (qs : List String)
    (hsa : a.sensitive_attr = "") (hca : a.class_attr = "")
    (hp : ds.protected_attribute_names = p :: ps)
    (hq : ds.label_names = q :: qs) :
    ((a.fit env ds).1).sensitive_attr = p ∧
    ((a.fit env ds).1).class_attr = q ∧
    Event.savetxt 1 (kamishimaMatrixTrain ds.df q ds.protected_attribute_names p) ∈
      (a.fit env ds).2.2.1 := by
  rcases henv : env.beh with code | _ <;>
    simp [Adapter.fit, runTrainExec, resolveAttr, hsa, hca, hp, hq, henv]

theorem C8_attribute_defaulting_witness :
    (Adapter.mk 1 "" "" none).sensitive_attr = "" ∧
    (Adapter.mk 1 "" "" none).class_attr = "" ∧
    demoDataset.protected_attribute_names = "sensitive" :: [] ∧
    demoDataset.label_names = "label" :: [] ∧
    ((((Adapter.mk 1 "" "" none).fit ⟨.exits 0, []⟩ demoDataset).1).sensitive_attr =
        "sensitive" ∧
     (((Adapter.mk 1 "" "" none).fit ⟨.exits 0, []⟩ demoDataset).1).class_attr =
        "label" ∧
     Event.savetxt 1 (kamishimaMatrixTrain demoDataset.df "label"
         demoDataset.protected_attribute_names "sensitive") ∈
       ((Adapter.mk 1 "" "" none).fit ⟨.exits 0, []⟩ demoDataset).2.2.1) :=
  ⟨rfl, rfl, by decide, by decide,
   C8_attribute_defaulting ⟨.exits 0, []⟩ (Adapter.mk 1 "" "" none) demoDataset
     "sensitive" [] "label" [] rfl rfl (by decide) (by decide)⟩

/-- C9: when the dataset declares more than one protected attribute, the
encoding drops every declared protected attribute from the feature block
(not just the designated one) and then appends only the designated sensitive
column and the label column, so a non-designated protected attribute
contributes no column of the serialized file at all. -/
theorem C9_all_protected_excluded (df : DataFrame) (y s p : String)
    (sas : List String) (hlen : 1 < sas.length) (hp : p ∈ sas)
    (hps : p ≠ s) (hpy : p ≠ y) :
    (∀ name ∈ df.names.filter (fun col => !(col == y) && !(sas.contains col)),
       name ∉ sas) ∧
    p ∉ (df.names.filter (fun col => !(col == y) && !(sas.contains col)) ++ [s, y]) ∧
    kamishimaColsTrain df y sas s =
      (df.names.filter (fun col => !(col == y) && !(sas.contains col))).map df.col
        ++ [df.col s, df.col y] := by
  have hfilter : ∀ name ∈ df.names.filter
      (fun col => !(col == y) && !(sas.contains col)), name ∉ sas := by
    intro name hname
    have h2 := (List.mem_filter.mp hname).2
    simp only [Bool.and_eq_true, Bool.not_eq_true'] at h2
    intro hmem
    rw [List.contains_eq_any_beq] at h2
    have : sas.any (name == ·) = true := List.any_of_mem hmem (by simp)
    rw [this] at h2
    exact Bool.false_ne_true h2.2.symm
  refine ⟨hfilter, ?_, rfl⟩
  intro hmem
  rcases List.mem_append.mp hmem with h | h
  · exact hfilter p h hp
  · have : p = s ∨ p = y := by simpa using h
    rcases this with rfl | rfl
    · exact hps rfl
    · exact hpy rfl

theorem C9_all_protected_excluded_witness :
    1 < (["sensA", "sensB"] : List String).length ∧
    "sensB" ∈ (["sensA", "sensB"] : List String) ∧
    "sensB" ≠ "sensA" ∧ "sensB" ≠ "label" ∧
    ((∀ name ∈ demoDataset2.df.names.filter
        (fun col => !(col == "label") && !((["sensA", "sensB"] : List String).contains col)),
        name ∉ (["sensA", "sensB"] : List String)) ∧
     "sensB" ∉ (demoDataset2.df.names.filter
        (fun col => !(col == "label") && !((["sensA", "sensB"] : List String).contains col))
          ++ ["sensA", "label"]) ∧
     kamishimaColsTrain demoDataset2.df "label" ["sensA", "sensB"] "sensA" =
       (demoDataset2.df.names.filter
           (fun col => !(col == "label") && !((["sensA", "sensB"] : List String).contains col))).map
           demoDataset2.df.col
         ++ [demoDataset2.df.col "sensA", demoDataset2.df.col "label"]) :=
  ⟨by decide, by decide, by decide, by decide,
   C9_all_protected_excluded demoDataset2.df "label" "sensA" "sensB"
     ["sensA", "sensB"] (by decide) (by decide) (by decide) (by decide)⟩

/-- C10: on the successful path, `predict` returns the input dataset copied
with exactly two fields replaced — `labels` becomes the decoded prediction
vector and `scores` the decoded score matrix — so every other field of the
returned dataset equals the input's; the input dataset itself is not
mutated (the embedding is pure, mirroring `dataset.copy()` on line 136). -/
theorem C10_predict_frame (env : Env) (a : Adapter) (ds : Dataset) (h : Nat)
    (c : Int) (hm : a.model_name = some h) (hb : env.beh = .exits c) :
    (a.predict env ds).1 =
      .ok { ds with labels := NDArr.one (decodeOutput env.toolOutput).1,
                    scores := NDArr.two (decodeOutput env.toolOutput).2 } ∧
    ({ ds with labels := NDArr.one (decodeOutput env.toolOutput).1,
               scores := NDArr.two (decodeOutput env.toolOutput).2 } : Dataset).features
      = ds.features ∧
    ({ ds with labels := NDArr.one (decodeOutput env.toolOutput).1,
               scores := NDArr.two (decodeOutput env.toolOutput).2 } : Dataset).feature_names
      = ds.feature_names ∧
    ({ ds with labels := NDArr.one (decodeOutput env.toolOutput).1,
               scores := NDArr.two (decodeOutput env.toolOutput).2 } : Dataset).label_names
      = ds.label_names ∧
    ({ ds with labels := NDArr.one (decodeOutput env.toolOutput).1,
               scores := NDArr.two (decodeOutput env.toolOutput).2 } : Dataset).protected_attribute_names
      = ds.protected_attribute_names ∧
    ({ ds with labels := NDArr.one (decodeOutput env.toolOutput).1,
               scores := NDArr.two (decodeOutput env.toolOutput).2 } : Dataset).protected_attributes
      = ds.protected_attributes ∧
    ({ ds with labels := NDArr.one (decodeOutput env.toolOutput).1,
               scores := NDArr.two (decodeOutput env.toolOutput).2 } : Dataset).instance_weights
      = ds.instance_weights ∧
    ({ ds with labels := NDArr.one (decodeOutput env.toolOutput).1,
               scores := NDArr.two (decodeOutput env.toolOutput).2 } : Dataset).instance_names
      = ds.instance_names := by
  refine ⟨?_, rfl, rfl, rfl, rfl, rfl, rfl, rfl⟩
  simp [Adapter.predict, runTestExec, hm, hb, decodeOutput]

theorem C10_predict_frame_witness :
    trainedAdapter.model_name = some 7 ∧
    (Env.mk (.exits 0) demoOut).beh = .exits 0 ∧
    ((trainedAdapter.predict ⟨.exits 0, demoOut⟩ demoDataset).1 =
      .ok { demoDataset with
              labels := NDArr.one (decodeOutput demoOut).1,
              scores := NDArr.two (decodeOutput demoOut).2 }) :=
  ⟨rfl, rfl,
   (C10_predict_frame ⟨.exits 0, demoOut⟩ trainedAdapter demoDataset 7 0 rfl rfl).1⟩

/-- C3 (code behavior at the failing input): calling `predict` on an adapter
whose `fit` never ran creates and writes both temp files, then fails with
`AttributeError` — not the spec's `PreconditionError` — and both temp files
still exist when the exception propagates.  The source therefore performs
file I/O before failing, contrary to the claim. -/
theorem C3_untrained_predict_behavior :
    (untrainedAdapter.predict ⟨.exits 0, []⟩ demoDataset).1 =
      .error .attributeError ∧
    PyError.attributeError ≠ PyError.preconditionError ∧
    (untrainedAdapter.predict ⟨.exits 0, []⟩ demoDataset).2.1 =
      [.mkstemp 0, .mkstemp 1, .savetxt 1 demoMatrix] ∧
    (untrainedAdapter.predict ⟨.exits 0, []⟩ demoDataset).2.2 = [0, 1] := by
  refine ⟨rfl, by decide, ?_, rfl⟩
  decide

/-- C4 (code behavior at the failing input): when the external trainer exits
with code 1, `fit` still returns normally, reports no `ExternalToolFailure`,
and replaces the prior model handle (`some 7`) with the fresh model file
(`some 0`); `predict` with exit code 1 likewise returns normally. -/
theorem C4_nonzero_exit_ignored :
    (trainedAdapter.fit ⟨.exits 1, []⟩ demoDataset).2.1 = .ok () ∧
    ((trainedAdapter.fit ⟨.exits 1, []⟩ demoDataset).1).model_name = some 0 ∧
    trainedAdapter.model_name = some 7 ∧ (0 : Nat) ≠ 7 ∧
    (trainedAdapter.predict ⟨.exits 1, demoOut⟩ demoDataset).1 =
      .ok { demoDataset with
              labels := NDArr.one (decodeOutput demoOut).1,
              scores := NDArr.two (decodeOutput demoOut).2 } := by
  exact ⟨rfl, rfl, rfl, by decide, rfl⟩

/-- C5 (code behavior at the failing input): when the subprocess launch
raises, both `fit`'s and `predict`'s serialized input files (and `predict`'s
output file) still exist after the call — the source's `os.unlink` lines are
skipped on that exit path — while on the successful path the per-call temp
files are indeed removed (only the model file, the returned handle,
persists). -/
theorem C5_temp_file_leak_on_raise :
    1 ∈ (untrainedAdapter.fit ⟨.raises, []⟩ demoDataset).2.2.2 ∧
    Event.mkstemp 1 ∈ (untrainedAdapter.fit ⟨.raises, []⟩ demoDataset).2.2.1 ∧
    (untrainedAdapter.fit ⟨.raises, []⟩ demoDataset).2.1 =
      .error .subprocessLaunchError ∧
    (trainedAdapter.predict ⟨.raises, []⟩ demoDataset).2.2 = [0, 1] ∧
    (untrainedAdapter.fit ⟨.exits 0, []⟩ demoDataset).2.2.2 = [0] ∧
    (trainedAdapter.predict ⟨.exits 0, demoOut⟩ demoDataset).2.2 = [] := by
  refine ⟨by decide, by decide, rfl, rfl, rfl, rfl⟩

end PrejudiceRemover
